import Mathlib

/-!
# ImageAnalyzer: a shallow embedding of `frontend/src/components/ImageAnalyzer.js`

The component keeps five pieces of React state (`model`, `prediction`, `imageSrc`,
`isWebcamActive`, `chosenItem`), three render-local `let` variables (`webcam`,
`labelContainer`, `maxPredictions`) and a handful of event handlers.

The first part of the file embeds the pure computation shared by `predict` and
`predictImage`: the `reduce` that selects the highest prediction and the
`toFixed(2)` that formats its probability.  The second part embeds the handlers
as a step function on an explicit world state, one step per handler run or per
continuation of an `await`.

JavaScript numbers: a probability is a finite IEEE double, and every finite double
is a rational number.  The two operations the component applies to a probability,
`>` and `toFixed`, are defined by ECMAScript on the exact mathematical value of the
number, so they are embedded over `ℚ` without rounding.  `NaN` and the infinities
are not values of this type.
-/

namespace ImageAnalyzer

/-! ## Data -/

/-- One element of the array that `model.predict` resolves to. -/
structure ClassPrediction where
  className : String
  probability : ℚ
deriving DecidableEq, Repr

/-- The object literal handed to `setPrediction` and to `setChosenItem`:
`probability` is the string produced by `toFixed(2)`. -/
structure Prediction where
  className : String
  probability : String
deriving DecidableEq, Repr

/-! ## `Array.prototype.reduce` and `Number.prototype.toFixed` -/

/-- `arr.reduce(callback)` without an initial value: the first element seeds the
accumulator and the callback is folded over the rest, left to right.  On an empty
array JavaScript throws a `TypeError`, rendered here as `none`. -/
def reduce {α : Type} (callback : α → α → α) : List α → Option α
  | [] => none
  | a :: as => some (as.foldl callback a)

/-- The arrow function given to `reduce` in `predict` and in `predictImage`:
`(max, current) => current.probability > max.probability ? current : max`. -/
def reduceCallback (max current : ClassPrediction) : ClassPrediction :=
  if current.probability > max.probability then current else max

/-- The digit layout of `toFixed` (ECMAScript `Number.prototype.toFixed`, the steps
after `n` is chosen): `m` is "0" when `n = 0` and the decimal digits of `n`
otherwise; when `f ≠ 0`, `m` is left-padded with zeros to `f + 1` characters if it has
at most `f`, and the point is inserted before its last `f` characters. -/
def toFixedDigits (n f : Nat) : List Char :=
  let m : List Char := if n = 0 then ['0'] else (Nat.repr n).data
  if f ≠ 0 then
    let k := m.length
    let m := if k ≤ f then List.replicate (f + 1 - k) '0' ++ m else m
    let k := m.length
    m.take (k - f) ++ ['.'] ++ m.drop (k - f)
  else m

/-- `x.toFixed(f)` following ECMAScript `Number.prototype.toFixed` for a finite `x`
below `10^21`: the sign is split off, `n` is the integer for which `n / 10^f - x` is
closest to zero (the larger one on a tie), and its digits are laid out by
`toFixedDigits`.  (From `10^21` on ECMAScript switches to exponent notation; that
branch is not embedded.) -/
def toFixed (x : ℚ) (f : Nat) : String :=
  let s := if x < 0 then "-" else ""
  let x := if x < 0 then -x else x
  let n : Nat := (Int.floor (x * 10 ^ f + 1 / 2)).toNat
  s ++ String.mk (toFixedDigits n f)

/-- The `highestPrediction` constant of `predict` (lines 72-74). -/
def predict_highestPrediction (prediction : List ClassPrediction) : Option ClassPrediction :=
  reduce (fun max current => if current.probability > max.probability then current else max)
    prediction

/-- The `highestPrediction` constant of `predictImage` (lines 122-124). -/
def predictImage_highestPrediction (prediction : List ClassPrediction) :
    Option ClassPrediction :=
  reduce (fun max current => if current.probability > max.probability then current else max)
    prediction

/-- The argument of `setPrediction` in `predict` (lines 76-79), `none` when the
`reduce` before it threw. -/
def predict_newPrediction (prediction : List ClassPrediction) : Option Prediction :=
  match predict_highestPrediction prediction with
  | none => none
  | some highestPrediction =>
    some { className := highestPrediction.className
           probability := toFixed highestPrediction.probability 2 }

/-- The argument of `setPrediction` in `predictImage` (lines 126-129), `none` when
the `reduce` before it threw. -/
def predictImage_newPrediction (prediction : List ClassPrediction) : Option Prediction :=
  match predictImage_highestPrediction prediction with
  | none => none
  | some highestPrediction =>
    some { className := highestPrediction.className
           probability := toFixed highestPrediction.probability 2 }

/-! ## Reading a displayed probability back -/

/-- Reads a plain decimal literal `digits.digits`: the natural number spelled by all
its digits with the point removed, and the number of digits after the point.
`none` when the text is not of that shape. -/
def parseDecimal (s : String) : Option (Nat × Nat) :=
  match s.data.span Char.isDigit with
  | (a, '.' :: b) =>
    if a ≠ [] ∧ b ≠ [] ∧ b.all Char.isDigit then
      some ((a ++ b).foldl (fun acc c => 10 * acc + (c.toNat - 48)) 0, b.length)
    else none
  | _ => none

/-- The number a plain decimal literal denotes. -/
def decimalValue (s : String) : Option ℚ :=
  (parseDecimal s).map fun p => (p.1 : ℚ) / 10 ^ p.2

/-- The text has exactly `k` digits after its decimal point (and at least one digit,
and only digits, before it). -/
def hasFractionDigits (s : String) (k : Nat) : Prop :=
  ∃ a b : List Char, s = String.mk (a ++ '.' :: b) ∧ a ≠ [] ∧
    (∀ c ∈ a, c.isDigit = true) ∧ (∀ c ∈ b, c.isDigit = true) ∧ b.length = k

/-! ## The component as a state machine

React calls the component function once per render.  Each call creates fresh `let`
variables (`webcam`, `maxPredictions`, ...) and fresh handler closures over them and
over the state values of that render.  A click runs the handler of the mounted
(latest) render; the continuation of an `await`, a `requestAnimationFrame` callback
or a `FileReader`/`Image` callback runs in the render whose handler started it.

The mounted render always shows the committed state (every state change re-renders
before the next event), so handlers run by a click read the state fields of the
world directly.  What an older render still holds that can differ from the mounted
one is its captured `model` and its own `webcam` variable; these are kept per render.

`webcam.stop()` is called outside any `try`.  In `@teachablemachine/image` it reads
the stream of the video element that `webcam.setup()` creates, so on a `Webcam` whose
`setup()` has not resolved (still pending, or rejected) it throws a `TypeError`; the
world records whether that element exists.  The other library calls outside a `try`
(`webcam.update()`, which only runs after `setup()` and `play()` resolved, and
`reader.readAsDataURL`) are taken to return normally.  The DOM nodes appended by
`initWebcam` are not recorded: no handler reads them back. -/

/-- The object `tmImage.load` resolves to, as far as the component looks into it. -/
structure Model where
  totalClasses : Nat
deriving DecidableEq, Repr

/-- A `tmImage.Webcam` object: whether its video element exists (`setup()` has
resolved), whether `webcam.canvas` is set, and whether `webcam.stop()` has stopped
its stream. -/
structure Webcam where
  video : Bool
  canvas : Bool
  stopped : Bool
deriving DecidableEq, Repr

/-- What one call of the component function leaves behind for its closures: the
`model` it read from state, and its `let webcam` and `let maxPredictions`. -/
structure Render where
  model : Option Model
  webcam : Option Webcam
  maxPredictions : Option Nat
deriving DecidableEq, Repr

/-- Asynchronous work that has been started and not yet completed; `r` is the index of
the render whose closure continues when it completes. -/
inductive Task where
  /-- `tmImage.load(modelURL, metadataURL)` in `loadModel`. -/
  | load
  /-- `navigator.mediaDevices.getUserMedia` in `startWebcam`. -/
  | getUserMedia (r : Nat)
  /-- `webcam.setup()` in `initWebcam`. -/
  | setup (r : Nat)
  /-- `webcam.play()` in `initWebcam`. -/
  | play (r : Nat)
  /-- A `window.requestAnimationFrame(loop)` not yet called back. -/
  | frame (r : Nat)
  /-- `model.predict(webcam.canvas)` in `predict`, awaited by `loop`. -/
  | predict (r : Nat)
  /-- `reader.readAsDataURL(file)` in `handleImageUpload`. -/
  | read (r : Nat)
  /-- The `Image` created by `predictImage`, loading. -/
  | decode (r : Nat)
  /-- `model.predict(img)` in the `onload` handler of `predictImage`. -/
  | predictImage (r : Nat)
deriving DecidableEq, Repr

/-- The component instance: React state, the renders so far (the last one is
mounted), the pending asynchronous work, the console output, and the number of
exceptions and promise rejections that no handler caught. -/
structure World where
  model : Option Model
  prediction : Option Prediction
  imageSrc : Option String
  isWebcamActive : Bool
  chosenItem : Option Prediction
  renders : List Render
  pending : List Task
  console : List String
  uncaught : Nat
deriving DecidableEq, Repr

/-- What the environment can do to the component: the five user actions, and the
completion of each kind of pending work with its outcome. -/
inductive Event where
  | clickToggle
  /-- `supported`: `navigator.mediaDevices && navigator.mediaDevices.getUserMedia`. -/
  | clickStartWebcam (supported : Bool)
  | clickStopWebcam
  /-- `file`: whether `event.target.files[0]` is set. -/
  | changeFile (file : Bool)
  | clickChooseItem
  | loadResolved (loadedModel : Model)
  | loadRejected
  | getUserMediaResolved (r : Nat)
  | getUserMediaRejected (r : Nat)
  /-- `canvas`: whether `webcam.canvas` is set once `setup` has resolved. -/
  | setupResolved (r : Nat) (canvas : Bool)
  | setupRejected (r : Nat)
  | playResolved (r : Nat)
  | playRejected (r : Nat)
  | animationFrame (r : Nat)
  | predictResolved (r : Nat) (prediction : List ClassPrediction)
  | predictRejected (r : Nat)
  /-- `result`: `reader.result`. -/
  | readEnd (r : Nat) (result : Option String)
  | imgLoad (r : Nat)
  | predictImageResolved (r : Nat) (prediction : List ClassPrediction)
  | predictImageRejected (r : Nat)
deriving DecidableEq, Repr

/-- A call of the component function: a new render with the current `model` and
unset `let` variables becomes the mounted one. -/
def World.render (w : World) : World :=
  { w with renders := w.renders ++ [{ model := w.model, webcam := none, maxPredictions := none }] }

/-- Index of the mounted render. -/
def World.current (w : World) : Nat := w.renders.length - 1

/-- `setModel(loadedModel)`. -/
def setModel (w : World) (loadedModel : Model) : World :=
  World.render { w with model := some loadedModel }

/-- `setPrediction({...})`: a fresh object, so React always re-renders. -/
def setPrediction (w : World) (p : Prediction) : World :=
  World.render { w with prediction := some p }

/-- `setChosenItem({...})`: a fresh object, so React always re-renders. -/
def setChosenItem (w : World) (p : Prediction) : World :=
  World.render { w with chosenItem := some p }

/-- `setImageSrc(x)`: React skips the render when the value is unchanged. -/
def setImageSrc (w : World) (x : Option String) : World :=
  if w.imageSrc = x then w else World.render { w with imageSrc := x }

/-- `setIsWebcamActive(b)`: React skips the render when the value is unchanged. -/
def setIsWebcamActive (w : World) (b : Bool) : World :=
  if w.isWebcamActive = b then w else World.render { w with isWebcamActive := b }

/-- `console.log` / `console.error`. -/
def consoleWrite (w : World) (msg : String) : World :=
  { w with console := w.console ++ [msg] }

/-- Starts asynchronous work. -/
def spawn (w : World) (t : Task) : World :=
  { w with pending := w.pending ++ [t] }

/-- An exception or rejection that nothing catches. -/
def throwUncaught (w : World) : World :=
  { w with uncaught := w.uncaught + 1 }

/-- Runs the continuation `k` of the pending work `t`; nothing happens when `t` is
not pending. -/
def complete (w : World) (t : Task) (k : World → World) : World :=
  if t ∈ w.pending then k { w with pending := w.pending.erase t } else w

/-- Assignment to the `let` variables of render `r`. -/
def setRender (w : World) (r : Nat) (c : Render) : World :=
  { w with renders := w.renders.set r c }

/-- The `useEffect` body after `await tmImage.load(...)` (lines 22-26). -/
def loadModel_afterLoad (w : World) (loaded : Option Model) : World :=
  match loaded with
  | some loadedModel => setModel w loadedModel
  | none => consoleWrite w "Error loading model:"

/-- `initWebcam` up to `await webcam.setup()` (lines 33-38), in render `r`. -/
def initWebcam (w : World) (r : Nat) : World :=
  match w.renders[r]? with
  | none => w
  | some c =>
    match c.webcam with
    | some _ => w
    | none =>
      let w := consoleWrite w "Setting up webcam..."
      let w := setRender w r
        { c with webcam := some { video := false, canvas := false, stopped := false } }
      spawn w (Task.setup r)

/-- `initWebcam` from `await webcam.setup()` to `await webcam.play()` (lines 38-42 and
50-55); `canvas = none` when `setup` rejected. -/
def initWebcam_afterSetup (w : World) (r : Nat) (canvas : Option Bool) : World :=
  match canvas with
  | none => consoleWrite w "Error initializing webcam:"
  | some canvas =>
    let w := consoleWrite w "Webcam setup completed"
    match w.renders[r]? with
    | none => w
    | some c =>
      match c.webcam with
      | none => consoleWrite w "Webcam canvas is not available or webcam setup failed"
      | some webcam =>
        let w := setRender w r
          { c with webcam := some { webcam with video := true, canvas := canvas } }
        if canvas then spawn w (Task.play r)
        else consoleWrite w "Webcam canvas is not available or webcam setup failed"

/-- `startPredictionLoop` (lines 58-66): schedules the first call of `loop`. -/
def startPredictionLoop (w : World) (r : Nat) : World :=
  spawn w (Task.frame r)

/-- `initWebcam` after `await webcam.play()` (lines 43-49 and 53-55); `played = false`
when `play` rejected.  `webcamContainerRef.current` is set exactly while the webcam
branch of the JSX is mounted, and `model` is the one render `r` captured: a null
dereference of either is caught by the `try`. -/
def initWebcam_afterPlay (w : World) (r : Nat) (played : Bool) : World :=
  if ¬ played then consoleWrite w "Error initializing webcam:"
  else if ¬ w.isWebcamActive then consoleWrite w "Error initializing webcam:"
  else
    match w.renders[r]? with
    | none => w
    | some c =>
      match c.model with
      | none => consoleWrite w "Error initializing webcam:"
      | some model =>
        let w := setRender w r { c with maxPredictions := some model.totalClasses }
        startPredictionLoop w r

/-- `loop` up to `await predict()`, with `predict` up to `await model.predict(...)`
(lines 60-62 and 69-71), in render `r`.  When `model` is null `predict` returns at
once and `loop` goes on to schedule the next frame. -/
def loop (w : World) (r : Nat) : World :=
  match w.renders[r]? with
  | none => w
  | some c =>
    match c.webcam with
    | none => w
    | some _ =>
      match c.model with
      | none => spawn w (Task.frame r)
      | some _ => spawn w (Task.predict r)

/-- `predict` after `await model.predict(...)` and the rest of `loop` (lines 72-79 and
63); `prediction = none` when `model.predict` rejected.  A rejection, or the
`TypeError` of `reduce` on an empty array, leaves `loop` through its `await`
uncaught, before `requestAnimationFrame`. -/
def predict_afterPredict (w : World) (r : Nat) (prediction : Option (List ClassPrediction)) :
    World :=
  match prediction with
  | none => throwUncaught w
  | some prediction =>
    match predict_newPrediction prediction with
    | none => throwUncaught w
    | some p => spawn (setPrediction w p) (Task.frame r)

/-- `startWebcam` up to `await getUserMedia` (lines 83-85 and 91-93). -/
def startWebcam (w : World) (supported : Bool) : World :=
  if supported then spawn w (Task.getUserMedia w.current)
  else consoleWrite w "Webcam not supported in this browser."

/-- `startWebcam` after `await getUserMedia` (lines 86-90); `granted = false` when it
rejected. -/
def startWebcam_afterGetUserMedia (w : World) (r : Nat) (granted : Bool) : World :=
  if granted then initWebcam (setIsWebcamActive w true) r
  else consoleWrite w "Error accessing webcam:"

/-- `stopWebcam` (lines 96-101), run by a click: in the mounted render.  When
`webcam` is set, `webcam.stop()` is called outside any `try`: on a `Webcam` without a
video element it throws, the exception leaves the handler and
`setIsWebcamActive(false)` is not reached. -/
def stopWebcam (w : World) : World :=
  match w.renders[w.current]? with
  | none => setIsWebcamActive w false
  | some c =>
    match c.webcam with
    | none => setIsWebcamActive w false
    | some webcam =>
      if webcam.video then
        setIsWebcamActive
          (setRender w w.current { c with webcam := some { webcam with stopped := true } }) false
      else throwUncaught w

/-- `handleImageUpload` (lines 103-113). -/
def handleImageUpload (w : World) (file : Bool) : World :=
  if file then spawn w (Task.read w.current) else w

/-- `predictImage` up to the assignment of `img.onload` (lines 115-120), in render
`r`. -/
def predictImage (w : World) (r : Nat) : World :=
  match w.renders[r]? with
  | none => w
  | some c =>
    match c.model with
    | none => w
    | some _ => spawn w (Task.decode r)

/-- `reader.onloadend` (lines 107-110). -/
def handleImageUpload_onloadend (w : World) (r : Nat) (result : Option String) : World :=
  predictImage (setImageSrc w result) r

/-- `img.onload` up to `await model.predict(img)` (line 121). -/
def predictImage_onload (w : World) (r : Nat) : World :=
  spawn w (Task.predictImage r)

/-- `img.onload` after `await model.predict(img)` (lines 122-129);
`prediction = none` when `model.predict` rejected. -/
def predictImage_afterPredict (w : World) (prediction : Option (List ClassPrediction)) :
    World :=
  match prediction with
  | none => throwUncaught w
  | some prediction =>
    match predictImage_newPrediction prediction with
    | none => throwUncaught w
    | some p => setPrediction w p

/-- `handleChooseItem` (lines 132-139). -/
def handleChooseItem (w : World) : World :=
  match w.prediction with
  | some prediction =>
    setChosenItem w { className := prediction.className, probability := prediction.probability }
  | none => w

/-- One event.  The Start/Stop buttons exist only while `isWebcamActive`, the file
input only while not; a completion does nothing unless its work is pending. -/
def step (w : World) : Event → World
  | .clickToggle => setIsWebcamActive w (!w.isWebcamActive)
  | .clickStartWebcam supported => if w.isWebcamActive then startWebcam w supported else w
  | .clickStopWebcam => if w.isWebcamActive then stopWebcam w else w
  | .changeFile file => if w.isWebcamActive then w else handleImageUpload w file
  | .clickChooseItem => handleChooseItem w
  | .loadResolved loadedModel =>
    complete w Task.load fun w => loadModel_afterLoad w (some loadedModel)
  | .loadRejected => complete w Task.load fun w => loadModel_afterLoad w none
  | .getUserMediaResolved r =>
    complete w (Task.getUserMedia r) fun w => startWebcam_afterGetUserMedia w r true
  | .getUserMediaRejected r =>
    complete w (Task.getUserMedia r) fun w => startWebcam_afterGetUserMedia w r false
  | .setupResolved r canvas =>
    complete w (Task.setup r) fun w => initWebcam_afterSetup w r (some canvas)
  | .setupRejected r => complete w (Task.setup r) fun w => initWebcam_afterSetup w r none
  | .playResolved r => complete w (Task.play r) fun w => initWebcam_afterPlay w r true
  | .playRejected r => complete w (Task.play r) fun w => initWebcam_afterPlay w r false
  | .animationFrame r => complete w (Task.frame r) fun w => loop w r
  | .predictResolved r prediction =>
    complete w (Task.predict r) fun w => predict_afterPredict w r (some prediction)
  | .predictRejected r => complete w (Task.predict r) fun w => predict_afterPredict w r none
  | .readEnd r result =>
    complete w (Task.read r) fun w => handleImageUpload_onloadend w r result
  | .imgLoad r => complete w (Task.decode r) fun w => predictImage_onload w r
  | .predictImageResolved r prediction =>
    complete w (Task.predictImage r) fun w => predictImage_afterPredict w (some prediction)
  | .predictImageRejected r =>
    complete w (Task.predictImage r) fun w => predictImage_afterPredict w none

/-- A sequence of events, in order. -/
def run (w : World) (events : List Event) : World :=
  events.foldl step w

/-- The component right after mounting: initial `useState` values, one render, and the
`useEffect` has called `loadModel`. -/
def mount : World :=
  { model := none, prediction := none, imageSrc := none, isWebcamActive := false,
    chosenItem := none,
    renders := [{ model := none, webcam := none, maxPredictions := none }],
    pending := [Task.load], console := [], uncaught := 0 }

/-- The text inside `#label-container` (lines 165-171). -/
def labelText (w : World) : String :=
  match w.prediction with
  | some prediction => prediction.className ++ ": " ++ prediction.probability
  | none => "No predictions yet."

/-- Number of `model.predict` calls of the webcam loop that have not resolved yet. -/
def classificationsInFlight (w : World) : Nat :=
  (w.pending.filter fun t => match t with
    | Task.predict _ => true
    | _ => false).length

/-- Kinds of work that can be pending while no render holds a model. -/
def Task.withoutModel : Task → Bool
  | .load => true
  | .getUserMedia _ => true
  | .setup _ => true
  | .play _ => true
  | .read _ => true
  | .frame _ => false
  | .predict _ => false
  | .decode _ => false
  | .predictImage _ => false

/-- The component while no model has arrived: `model` is null in the state and in
every render, nothing has been predicted or chosen, only work that needs no model is
pending, and `tmImage.load` is pending at most once. -/
def ModelAbsent (w : World) : Prop :=
  w.model = none ∧ (∀ c ∈ w.renders, c.model = none) ∧ w.prediction = none ∧
  w.chosenItem = none ∧ (∀ t ∈ w.pending, t.withoutModel = true) ∧
  w.pending.count Task.load ≤ 1

/-- Number of Stop Webcam clicks in a sequence of events. -/
def stopClicks (events : List Event) : Nat :=
  events.count Event.clickStopWebcam

/-! ## Selection of the highest prediction -/

/-- Folding `reduceCallback` from an accumulator `a` over `l`: either the accumulator
survives and nothing in `l` is larger, or the result sits at an index `i` of `l`, is
strictly larger than the accumulator and than everything before `i`, and nothing in
`l` is larger than it. -/
theorem foldl_reduceCallback_spec (l : List ClassPrediction) (a : ClassPrediction) :
    (l.foldl reduceCallback a = a ∧ ∀ e ∈ l, e.probability ≤ a.probability) ∨
    ∃ i : Nat, l[i]? = some (l.foldl reduceCallback a) ∧
      a.probability < (l.foldl reduceCallback a).probability ∧
      (∀ j : Nat, j < i → ∀ e : ClassPrediction, l[j]? = some e →
        e.probability < (l.foldl reduceCallback a).probability) ∧
      ∀ e ∈ l, e.probability ≤ (l.foldl reduceCallback a).probability := by
  induction l generalizing a with
  | nil => left; simp
  | cons b l ih =>
    simp only [List.foldl_cons]
    by_cases hb : b.probability > a.probability
    · have hcb : reduceCallback a b = b := by simp [reduceCallback, hb]
      rw [hcb]
      rcases ih b with ⟨hr, hall⟩ | ⟨i, hi, hlt, hbefore, hall⟩
      · right
        refine ⟨0, by simp [hr], by rw [hr]; exact hb, by intro j hj; omega, ?_⟩
        intro e he
        rw [hr]
        rcases List.mem_cons.mp he with rfl | he
        · exact le_refl _
        · exact hall e he
      · right
        refine ⟨i + 1, by simpa using hi, lt_trans hb hlt, ?_, ?_⟩
        · intro j hj e hje
          cases j with
          | zero =>
            simp at hje
            subst hje
            exact hlt
          | succ j =>
            simp at hje
            exact hbefore j (by omega) e hje
        · intro e he
          rcases List.mem_cons.mp he with rfl | he
          · exact le_of_lt hlt
          · exact hall e he
    · have hcb : reduceCallback a b = a := by simp [reduceCallback, hb]
      have hba : b.probability ≤ a.probability := not_lt.mp hb
      rw [hcb]
      rcases ih a with ⟨hr, hall⟩ | ⟨i, hi, hlt, hbefore, hall⟩
      · left
        refine ⟨hr, ?_⟩
        intro e he
        rcases List.mem_cons.mp he with rfl | he
        · exact hba
        · exact hall e he
      · right
        refine ⟨i + 1, by simpa using hi, hlt, ?_, ?_⟩
        · intro j hj e hje
          cases j with
          | zero =>
            simp at hje
            subst hje
            exact lt_of_le_of_lt hba hlt
          | succ j =>
            simp at hje
            exact hbefore j (by omega) e hje
        · intro e he
          rcases List.mem_cons.mp he with rfl | he
          · exact le_trans hba (le_of_lt hlt)
          · exact hall e he

/-- On a non-empty array `reduce reduceCallback` returns the element at some index
`i`; nothing in the array has a larger probability, and every element before `i` has
a strictly smaller one. -/
theorem reduce_reduceCallback_spec (l : List ClassPrediction) (hne : l ≠ []) :
    ∃ (sel : ClassPrediction) (i : Nat), reduce reduceCallback l = some sel ∧ l[i]? = some sel ∧
      (∀ e ∈ l, e.probability ≤ sel.probability) ∧
      ∀ j : Nat, j < i → ∀ e : ClassPrediction, l[j]? = some e → e.probability < sel.probability := by
  cases l with
  | nil => exact absurd rfl hne
  | cons a l =>
    rcases foldl_reduceCallback_spec l a with ⟨hr, hall⟩ | ⟨i, hi, hlt, hbefore, hall⟩
    · refine ⟨a, 0, by simp [reduce, hr], by simp, ?_, by intro j hj; omega⟩
      intro e he
      rcases List.mem_cons.mp he with rfl | he
      · exact le_refl _
      · exact hall e he
    · refine ⟨l.foldl reduceCallback a, i + 1, by simp [reduce], by simpa using hi, ?_, ?_⟩
      · intro e he
        rcases List.mem_cons.mp he with rfl | he
        · exact le_of_lt hlt
        · exact hall e he
      · intro j hj e hje
        cases j with
        | zero =>
          simp at hje
          subst hje
          exact hlt
        | succ j =>
          simp at hje
          exact hbefore j (by omega) e hje

theorem predict_highestPrediction_eq (l : List ClassPrediction) :
    predict_highestPrediction l = reduce reduceCallback l := rfl

theorem predictImage_highestPrediction_eq (l : List ClassPrediction) :
    predictImage_highestPrediction l = reduce reduceCallback l := rfl

/-- What `predict` and `predictImage` hand to `setPrediction` becomes the `prediction`
state and the text of the label area. -/
theorem afterPredict_stores (l : List ClassPrediction) (p : Prediction)
    (h1 : predict_newPrediction l = some p) (h2 : predictImage_newPrediction l = some p)
    (w : World) (r : Nat) :
    (predict_afterPredict w r (some l)).prediction = some p ∧
    (predictImage_afterPredict w (some l)).prediction = some p ∧
    labelText (predict_afterPredict w r (some l)) = p.className ++ ": " ++ p.probability ∧
    labelText (predictImage_afterPredict w (some l))
      = p.className ++ ": " ++ p.probability := by
  simp [predict_afterPredict, predictImage_afterPredict, h1, h2, setPrediction, spawn,
    World.render, labelText]

/-- C1: for every non-empty prediction list, the entry selected by the `reduce` of
`predict` and of `predictImage` has a probability greater than or equal to the
probability of every entry of the list. -/
theorem highestPrediction_is_max (l : List ClassPrediction) (hne : l ≠ []) :
    ∃ sel, predict_highestPrediction l = some sel ∧
      predictImage_highestPrediction l = some sel ∧
      ∀ e ∈ l, e.probability ≤ sel.probability := by
  obtain ⟨sel, i, hsel, -, hmax, -⟩ := reduce_reduceCallback_spec l hne
  exact ⟨sel, hsel, hsel, hmax⟩

/-- C1, at the list `[cat 0.8, dog 0.2]`: the label area shows `cat: 0.80`, `cat` is
selected on both paths, and the selected entry bounds every entry. -/
theorem highestPrediction_is_max_witness :
    labelText (predict_afterPredict mount 0 (some [⟨"cat", 8 / 10⟩, ⟨"dog", 2 / 10⟩]))
      = "cat: 0.80" ∧
    predict_highestPrediction [⟨"cat", 8 / 10⟩, ⟨"dog", 2 / 10⟩] = some ⟨"cat", 8 / 10⟩ ∧
    predictImage_highestPrediction [⟨"cat", 8 / 10⟩, ⟨"dog", 2 / 10⟩]
      = some ⟨"cat", 8 / 10⟩ ∧
    ∃ sel, predict_highestPrediction [⟨"cat", 8 / 10⟩, ⟨"dog", 2 / 10⟩] = some sel ∧
      predictImage_highestPrediction [⟨"cat", 8 / 10⟩, ⟨"dog", 2 / 10⟩] = some sel ∧
      ∀ e ∈ [(⟨"cat", 8 / 10⟩ : ClassPrediction), ⟨"dog", 2 / 10⟩],
        e.probability ≤ sel.probability :=
  ⟨by decide!, by decide!, by decide!, highestPrediction_is_max _ (by simp)⟩

/-- C2: for every non-empty prediction list, the entry selected in `predict` and in
`predictImage` is the entry at the smallest index whose probability equals the
maximum of the list: it sits at an index `i`, bounds every entry, and every entry
at an index before `i` has a different (strictly smaller) probability. -/
theorem highestPrediction_first_max (l : List ClassPrediction) (hne : l ≠ []) :
    ∃ (sel : ClassPrediction) (i : Nat), predict_highestPrediction l = some sel ∧
      predictImage_highestPrediction l = some sel ∧
      l[i]? = some sel ∧
      (∀ e ∈ l, e.probability ≤ sel.probability) ∧
      ∀ j : Nat, j < i → ∀ e : ClassPrediction, l[j]? = some e →
        e.probability < sel.probability ∧ e.probability ≠ sel.probability := by
  obtain ⟨sel, i, hsel, hi, hmax, hbefore⟩ := reduce_reduceCallback_spec l hne
  refine ⟨sel, i, hsel, hsel, hi, hmax, ?_⟩
  intro j hj e hje
  exact ⟨hbefore j hj e hje, ne_of_lt (hbefore j hj e hje)⟩

/-- C2, at a list whose maximum `0.4` occurs at indices 1 and 2: the entry at index 1
is selected on both paths. -/
theorem highestPrediction_first_max_witness :
    predict_highestPrediction [⟨"a", 2 / 10⟩, ⟨"b", 4 / 10⟩, ⟨"c", 4 / 10⟩]
      = some ⟨"b", 4 / 10⟩ ∧
    ∃ (sel : ClassPrediction) (i : Nat),
      predict_highestPrediction [⟨"a", 2 / 10⟩, ⟨"b", 4 / 10⟩, ⟨"c", 4 / 10⟩] = some sel ∧
      predictImage_highestPrediction [⟨"a", 2 / 10⟩, ⟨"b", 4 / 10⟩, ⟨"c", 4 / 10⟩]
        = some sel ∧
      [(⟨"a", 2 / 10⟩ : ClassPrediction), ⟨"b", 4 / 10⟩, ⟨"c", 4 / 10⟩][i]? = some sel ∧
      (∀ e ∈ [(⟨"a", 2 / 10⟩ : ClassPrediction), ⟨"b", 4 / 10⟩, ⟨"c", 4 / 10⟩],
        e.probability ≤ sel.probability) ∧
      ∀ j : Nat, j < i → ∀ e : ClassPrediction,
        [(⟨"a", 2 / 10⟩ : ClassPrediction), ⟨"b", 4 / 10⟩, ⟨"c", 4 / 10⟩][j]? = some e →
        e.probability < sel.probability ∧ e.probability ≠ sel.probability :=
  ⟨by decide!, highestPrediction_first_max _ (by simp)⟩

/-- C10: for every non-empty prediction list, the Prediction stored by `predict` and
by `predictImage` comes from one entry of the list: there is an index `i` such that
the stored `className` is the `className` of entry `i` and the stored probability is
`toFixed(2)` of the probability of that same entry. -/
theorem newPrediction_from_single_entry (l : List ClassPrediction) (hne : l ≠ []) :
    ∃ (i : Nat) (e : ClassPrediction), l[i]? = some e ∧
      predict_newPrediction l
        = some { className := e.className, probability := toFixed e.probability 2 } ∧
      predictImage_newPrediction l
        = some { className := e.className, probability := toFixed e.probability 2 } ∧
      ∀ (w : World) (r : Nat),
        (predict_afterPredict w r (some l)).prediction
          = some { className := e.className, probability := toFixed e.probability 2 } ∧
        (predictImage_afterPredict w (some l)).prediction
          = some { className := e.className, probability := toFixed e.probability 2 } := by
  obtain ⟨sel, i, hsel, hi, -, -⟩ := reduce_reduceCallback_spec l hne
  have h1 : predict_newPrediction l
      = some { className := sel.className, probability := toFixed sel.probability 2 } := by
    simp [predict_newPrediction, predict_highestPrediction_eq, hsel]
  have h2 : predictImage_newPrediction l
      = some { className := sel.className, probability := toFixed sel.probability 2 } := by
    simp [predictImage_newPrediction, predictImage_highestPrediction_eq, hsel]
  refine ⟨i, sel, hi, h1, h2, fun w r => ?_⟩
  exact ⟨(afterPredict_stores l _ h1 h2 w r).1, (afterPredict_stores l _ h1 h2 w r).2.1⟩

/-- C10, at the list `[cat 0.3, dog 0.7]`: both paths store `dog` with `"0.70"`, label
and probability of the entry at index 1. -/
theorem newPrediction_from_single_entry_witness :
    predict_newPrediction [⟨"cat", 3 / 10⟩, ⟨"dog", 7 / 10⟩] = some ⟨"dog", "0.70"⟩ ∧
    ∃ (i : Nat) (e : ClassPrediction), [(⟨"cat", 3 / 10⟩ : ClassPrediction), ⟨"dog", 7 / 10⟩][i]? = some e ∧
      predict_newPrediction [⟨"cat", 3 / 10⟩, ⟨"dog", 7 / 10⟩]
        = some { className := e.className, probability := toFixed e.probability 2 } ∧
      predictImage_newPrediction [⟨"cat", 3 / 10⟩, ⟨"dog", 7 / 10⟩]
        = some { className := e.className, probability := toFixed e.probability 2 } ∧
      ∀ (w : World) (r : Nat),
        (predict_afterPredict w r (some [⟨"cat", 3 / 10⟩, ⟨"dog", 7 / 10⟩])).prediction
          = some { className := e.className, probability := toFixed e.probability 2 } ∧
        (predictImage_afterPredict w (some [⟨"cat", 3 / 10⟩, ⟨"dog", 7 / 10⟩])).prediction
          = some { className := e.className, probability := toFixed e.probability 2 } :=
  ⟨by decide!, newPrediction_from_single_entry _ (by simp)⟩

/-! ## Formatting of the selected probability -/

theorem parseDecimal_hasFractionDigits (s : String) (m k : Nat)
    (h : parseDecimal s = some (m, k)) : hasFractionDigits s k := by
  unfold parseDecimal at h
  have hspan : s.data.span Char.isDigit
      = (s.data.takeWhile Char.isDigit, s.data.dropWhile Char.isDigit) :=
    List.span_eq_take_drop _ _
  rw [hspan] at h
  have happ := List.takeWhile_append_dropWhile Char.isDigit s.data
  generalize hd : s.data.dropWhile Char.isDigit = d at h happ
  have ha : ∀ c ∈ s.data.takeWhile Char.isDigit, c.isDigit = true :=
    fun c hc => List.mem_takeWhile_imp hc
  generalize s.data.takeWhile Char.isDigit = a at h happ ha
  split at h
  · rename_i a2 b heq
    simp only [Prod.mk.injEq] at heq
    obtain ⟨rfl, rfl⟩ := heq
    split at h
    · rename_i hcond
      simp only [Option.some.injEq, Prod.mk.injEq] at h
      refine ⟨a, b, ?_, hcond.1, ha, ?_, h.2⟩
      · cases s
        simp only at happ
        simp [happ]
      · intro c hc
        exact List.all_eq_true.mp hcond.2.2 c hc
    · exact absurd h (by simp)
  · exact absurd h (by simp)

set_option maxRecDepth 100000 in
theorem parseDecimal_toFixedDigits_two :
    ∀ n, n ≤ 100 → parseDecimal (String.mk (toFixedDigits n 2)) = some (n, 2) := by
  decide

theorem toFixed_of_nonneg (x : ℚ) (f : Nat) (hx : 0 ≤ x) :
    toFixed x f = String.mk (toFixedDigits (Int.floor (x * 10 ^ f + 1 / 2)).toNat f) := by
  have hneg : ¬ x < 0 := not_lt.mpr hx
  simp [toFixed, hneg]

/-- The integer chosen by `toFixed(2)` for a probability in `[0, 1]` lies in
`[0, 100]`. -/
theorem floor_hundredths_bounds (x : ℚ) (h0 : 0 ≤ x) (h1 : x ≤ 1) :
    0 ≤ Int.floor (x * 10 ^ 2 + 1 / 2) ∧ Int.floor (x * 10 ^ 2 + 1 / 2) ≤ 100 := by
  constructor
  · apply Int.floor_nonneg.mpr
    nlinarith
  · have h : Int.floor (x * 10 ^ 2 + 1 / 2) < 101 := by
      apply Int.floor_lt.mpr
      push_cast
      nlinarith
    omega

/-- The integer chosen by `toFixed(2)` is a nearest integer to `100 x`. -/
theorem floor_hundredths_nearest (x : ℚ) (k : ℤ) :
    |((Int.floor (x * 10 ^ 2 + 1 / 2) : ℤ) : ℚ) / 100 - x| ≤ 1 / 200 ∧
    |((Int.floor (x * 10 ^ 2 + 1 / 2) : ℤ) : ℚ) / 100 - x| ≤ |(k : ℚ) / 100 - x| := by
  have hle := Int.floor_le (x * 10 ^ 2 + 1 / 2)
  have hlt := Int.lt_floor_add_one (x * 10 ^ 2 + 1 / 2)
  set n := Int.floor (x * 10 ^ 2 + 1 / 2) with hn
  have h1 : |(n : ℚ) / 100 - x| ≤ 1 / 200 := by
    rw [abs_le]
    constructor <;> linarith
  refine ⟨h1, ?_⟩
  rcases lt_trichotomy k n with hk | hk | hk
  · have hk1 : (k : ℚ) + 1 ≤ n := by exact_mod_cast hk
    have : (1 : ℚ) / 200 ≤ |(k : ℚ) / 100 - x| := by
      rw [le_abs]
      right
      linarith
    linarith
  · subst hk
    exact le_refl _
  · have hk1 : (n : ℚ) + 1 ≤ k := by exact_mod_cast hk
    have : (1 : ℚ) / 200 ≤ |(k : ℚ) / 100 - x| := by
      rw [le_abs]
      left
      linarith
    linarith

/-- C3: for every non-empty prediction list with probabilities in `[0, 1]`, the
probability stored in the Prediction state by `predict` and by `predictImage` is a
decimal text with exactly 2 digits after the point; the number it denotes is the
selected probability rounded to 2 decimal places (the hundredth `n / 100` with
`n = floor (100 x + 1/2)`, at distance at most `1/200` and no farther from it than any
other hundredth) and lies in `[0, 1]`; that text is what the `prediction` state holds
and what the label area displays after the colon. -/
theorem stored_probability_two_decimals (l : List ClassPrediction) (hne : l ≠ [])
    (hp : ∀ e ∈ l, 0 ≤ e.probability ∧ e.probability ≤ 1) :
    ∃ (sel : ClassPrediction) (p : Prediction) (v : ℚ),
      predict_highestPrediction l = some sel ∧
      predict_newPrediction l = some p ∧
      predictImage_newPrediction l = some p ∧
      hasFractionDigits p.probability 2 ∧
      decimalValue p.probability = some v ∧
      v = ((Int.floor (sel.probability * 10 ^ 2 + 1 / 2) : ℤ) : ℚ) / 100 ∧
      |v - sel.probability| ≤ 1 / 200 ∧
      (∀ k : ℤ, |v - sel.probability| ≤ |(k : ℚ) / 100 - sel.probability|) ∧
      0 ≤ v ∧ v ≤ 1 ∧
      ∀ (w : World) (r : Nat),
        (predict_afterPredict w r (some l)).prediction = some p ∧
        (predictImage_afterPredict w (some l)).prediction = some p ∧
        labelText (predict_afterPredict w r (some l))
          = p.className ++ ": " ++ p.probability ∧
        labelText (predictImage_afterPredict w (some l))
          = p.className ++ ": " ++ p.probability := by
  obtain ⟨sel, i, hsel, hi, -, -⟩ := reduce_reduceCallback_spec l hne
  have hmem : sel ∈ l := List.mem_iff_getElem?.mpr ⟨i, hi⟩
  obtain ⟨h0, h1⟩ := hp sel hmem
  obtain ⟨hn0, hn100⟩ := floor_hundredths_bounds sel.probability h0 h1
  have hfmt := toFixed_of_nonneg sel.probability 2 h0
  set n := Int.floor (sel.probability * 10 ^ 2 + 1 / 2) with hn
  have hparse := parseDecimal_toFixedDigits_two n.toNat (by omega)
  have hcast : ((n.toNat : ℕ) : ℚ) = (n : ℚ) := by
    have : ((n.toNat : ℕ) : ℤ) = n := Int.toNat_of_nonneg hn0
    exact_mod_cast this
  have hnew1 : predict_newPrediction l
      = some { className := sel.className, probability := toFixed sel.probability 2 } := by
    simp [predict_newPrediction, predict_highestPrediction_eq, hsel]
  have hnew2 : predictImage_newPrediction l
      = some { className := sel.className, probability := toFixed sel.probability 2 } := by
    simp [predictImage_newPrediction, predictImage_highestPrediction_eq, hsel]
  refine ⟨sel, ⟨sel.className, toFixed sel.probability 2⟩, (n : ℚ) / 100, hsel, hnew1, hnew2,
    ?_, ?_, rfl, (floor_hundredths_nearest sel.probability 0).1,
    fun k => (floor_hundredths_nearest sel.probability k).2, ?_, ?_,
    afterPredict_stores l _ hnew1 hnew2⟩
  · rw [hfmt]
    exact parseDecimal_hasFractionDigits _ _ _ hparse
  · simp only [decimalValue]
    rw [hfmt, hparse]
    simp only [Option.map_some']
    rw [hcast]
    norm_num
  · have : (0 : ℚ) ≤ (n : ℚ) := by exact_mod_cast hn0
    positivity
  · have : (n : ℚ) ≤ 100 := by exact_mod_cast hn100
    linarith

/-- C3, at the one-entry list `[dog 0.7]`: the probabilities are in `[0, 1]`, the stored
text is `0.70`, and it has the stated shape and value. -/
theorem stored_probability_two_decimals_witness :
    predict_newPrediction [⟨"dog", 7 / 10⟩] = some ⟨"dog", "0.70"⟩ ∧
    predictImage_newPrediction [⟨"dog", 7 / 10⟩] = some ⟨"dog", "0.70"⟩ ∧
    ∃ (sel : ClassPrediction) (p : Prediction) (v : ℚ),
      predict_highestPrediction [⟨"dog", 7 / 10⟩] = some sel ∧
      predict_newPrediction [⟨"dog", 7 / 10⟩] = some p ∧
      predictImage_newPrediction [⟨"dog", 7 / 10⟩] = some p ∧
      hasFractionDigits p.probability 2 ∧
      decimalValue p.probability = some v ∧
      v = ((Int.floor (sel.probability * 10 ^ 2 + 1 / 2) : ℤ) : ℚ) / 100 ∧
      |v - sel.probability| ≤ 1 / 200 ∧
      (∀ k : ℤ, |v - sel.probability| ≤ |(k : ℚ) / 100 - sel.probability|) ∧
      0 ≤ v ∧ v ≤ 1 ∧
      ∀ (w : World) (r : Nat),
        (predict_afterPredict w r (some [⟨"dog", 7 / 10⟩])).prediction = some p ∧
        (predictImage_afterPredict w (some [⟨"dog", 7 / 10⟩])).prediction = some p ∧
        labelText (predict_afterPredict w r (some [⟨"dog", 7 / 10⟩]))
          = p.className ++ ": " ++ p.probability ∧
        labelText (predictImage_afterPredict w (some [⟨"dog", 7 / 10⟩]))
          = p.className ++ ": " ++ p.probability :=
  ⟨by decide!, by decide!,
    stored_probability_two_decimals _ (by simp) (by
      intro e he
      simp only [List.mem_singleton] at he
      subst he
      constructor <;> norm_num)⟩

/-! ## The handlers -/

/-- C4: for every component state, `handleChooseItem` leaves `chosenItem` unchanged
when `prediction` is null; when `prediction` is not null it sets `chosenItem` to a copy
with the same `className` and the same `probability`; in both cases `prediction` is
unchanged. -/
theorem handleChooseItem_copies_prediction (w : World) :
    (w.prediction = none → (step w Event.clickChooseItem).chosenItem = w.chosenItem) ∧
    (∀ p : Prediction, w.prediction = some p →
      ∃ c : Prediction, (step w Event.clickChooseItem).chosenItem = some c ∧
        c.className = p.className ∧ c.probability = p.probability) ∧
    (step w Event.clickChooseItem).prediction = w.prediction := by
  refine ⟨?_, ?_, ?_⟩
  · intro h
    simp [step, handleChooseItem, h]
  · intro p h
    exact ⟨⟨p.className, p.probability⟩, by
      simp [step, handleChooseItem, h, setChosenItem, World.render], rfl, rfl⟩
  · cases h : w.prediction <;>
      simp [step, handleChooseItem, h, setChosenItem, World.render]

/-- C4, after an upload classified as `[cat 0.3, dog 0.7]`: the prediction is
`dog`, `0.70`, and Choose Item sets `chosenItem` to `dog`, `0.70`. -/
theorem handleChooseItem_copies_prediction_witness :
    (run mount [Event.loadResolved ⟨2⟩, Event.changeFile true, Event.readEnd 1 (some "data:"),
        Event.imgLoad 1,
        Event.predictImageResolved 1 [⟨"cat", 3 / 10⟩, ⟨"dog", 7 / 10⟩]]).prediction
      = some ⟨"dog", "0.70"⟩ ∧
    (run mount [Event.loadResolved ⟨2⟩, Event.changeFile true, Event.readEnd 1 (some "data:"),
        Event.imgLoad 1,
        Event.predictImageResolved 1 [⟨"cat", 3 / 10⟩, ⟨"dog", 7 / 10⟩],
        Event.clickChooseItem]).chosenItem
      = some ⟨"dog", "0.70"⟩ ∧
    (step mount Event.clickChooseItem).chosenItem = none ∧
    (step mount Event.clickChooseItem).prediction = mount.prediction :=
  ⟨by decide!, by decide!,
    (handleChooseItem_copies_prediction mount).1 rfl,
    (handleChooseItem_copies_prediction mount).2.2⟩

/-- C5: for every component state and every event other than the Choose Item click (a
webcam prediction cycle, an upload prediction, a mode toggle, start webcam, stop
webcam, model load completion, ...), `chosenItem` after the event equals `chosenItem`
before it. -/
theorem chosenItem_changed_only_by_choose (w : World) (e : Event)
    (he : e ≠ Event.clickChooseItem) : (step w e).chosenItem = w.chosenItem := by
  cases e <;>
    first
    | exact absurd rfl he
    | (simp only [step, complete, loadModel_afterLoad, startWebcam_afterGetUserMedia,
        initWebcam_afterSetup, initWebcam_afterPlay, loop, predict_afterPredict,
        handleImageUpload_onloadend, predictImage_onload, predictImage_afterPredict,
        startWebcam, stopWebcam, handleImageUpload, predictImage, initWebcam,
        startPredictionLoop, setModel, setPrediction, setImageSrc, setIsWebcamActive,
        consoleWrite, spawn, throwUncaught, setRender, World.render]
       repeat' split
       all_goals simp_all)

/-- C5, at a state with a chosen item: a later webcam prediction of another class
leaves `chosenItem` as it was. -/
theorem chosenItem_changed_only_by_choose_witness :
    Event.predictResolved 0 [⟨"cat", 1⟩] ≠ Event.clickChooseItem ∧
    (step { mount with chosenItem := some ⟨"dog", "0.70"⟩, pending := [Task.predict 0] }
        (Event.predictResolved 0 [⟨"cat", 1⟩])).prediction = some ⟨"cat", "1.00"⟩ ∧
    (step { mount with chosenItem := some ⟨"dog", "0.70"⟩, pending := [Task.predict 0] }
        (Event.predictResolved 0 [⟨"cat", 1⟩])).chosenItem
      = ({ mount with chosenItem := some ⟨"dog", "0.70"⟩,
                      pending := [Task.predict 0] } : World).chosenItem :=
  ⟨by decide, by decide!,
    chosenItem_changed_only_by_choose _ _ (by decide)⟩

/-- C8: for every component state, the capture-mode toggle negates `isWebcamActive` and
changes nothing else: `prediction`, `chosenItem`, `model` and `imageSrc` are unchanged,
nothing is thrown, no asynchronous work is started or dropped (so no webcam session
starts), and every earlier render, with its `webcam` object, is left as it was (so no
running session is stopped); the only addition is the re-render. -/
theorem toggle_changes_only_mode (w : World) :
    (step w Event.clickToggle).isWebcamActive = (!w.isWebcamActive) ∧
    (step w Event.clickToggle).prediction = w.prediction ∧
    (step w Event.clickToggle).chosenItem = w.chosenItem ∧
    (step w Event.clickToggle).model = w.model ∧
    (step w Event.clickToggle).imageSrc = w.imageSrc ∧
    (step w Event.clickToggle).uncaught = w.uncaught ∧
    (step w Event.clickToggle).pending = w.pending ∧
    (step w Event.clickToggle).console = w.console ∧
    (step w Event.clickToggle).renders
      = w.renders ++ [{ model := w.model, webcam := none, maxPredictions := none }] := by
  have hne : ¬ (w.isWebcamActive = !w.isWebcamActive) := by
    cases w.isWebcamActive <;> simp
  simp [step, setIsWebcamActive, hne, World.render]

/-! ## While no model is loaded -/

theorem modelAbsent_mount : ModelAbsent mount := by
  refine ⟨rfl, ?_, rfl, rfl, ?_, ?_⟩
  · intro c hc
    simp [mount] at hc
    simp [hc]
  · intro t ht
    simp [mount] at ht
    simp [ht, Task.withoutModel]
  · simp [mount]

theorem modelAbsent_render {w : World} (h : ModelAbsent w) : ModelAbsent w.render := by
  obtain ⟨hm, hr, hp, hc, ht, hl⟩ := h
  refine ⟨hm, ?_, hp, hc, ht, hl⟩
  intro c hc
  simp only [World.render, List.mem_append, List.mem_singleton] at hc
  rcases hc with hc | rfl
  · exact hr c hc
  · exact hm

theorem modelAbsent_setIsWebcamActive {w : World} (h : ModelAbsent w) (b : Bool) :
    ModelAbsent (setIsWebcamActive w b) := by
  unfold setIsWebcamActive
  split
  · exact h
  · exact modelAbsent_render (w := { w with isWebcamActive := b }) h

theorem modelAbsent_setImageSrc {w : World} (h : ModelAbsent w) (x : Option String) :
    ModelAbsent (setImageSrc w x) := by
  unfold setImageSrc
  split
  · exact h
  · exact modelAbsent_render (w := { w with imageSrc := x }) h

theorem modelAbsent_consoleWrite {w : World} (h : ModelAbsent w) (msg : String) :
    ModelAbsent (consoleWrite w msg) := h

theorem modelAbsent_spawn {w : World} (h : ModelAbsent w) (t : Task)
    (ht : t.withoutModel = true) (hl : t ≠ Task.load) : ModelAbsent (spawn w t) := by
  obtain ⟨hm, hr, hp, hc, hts, hcount⟩ := h
  refine ⟨hm, hr, hp, hc, ?_, ?_⟩
  · intro t2 ht2
    simp only [spawn, List.mem_append, List.mem_singleton] at ht2
    rcases ht2 with ht2 | rfl
    · exact hts t2 ht2
    · exact ht
  · simp only [spawn, List.count_append]
    have : List.count Task.load [t] = 0 := by
      simp [List.count_singleton, hl]
    omega

theorem modelAbsent_setRender {w : World} (h : ModelAbsent w) (r : Nat) (c : Render)
    (hc : c.model = none) : ModelAbsent (setRender w r c) := by
  obtain ⟨hm, hr, hp, hch, hts, hcount⟩ := h
  refine ⟨hm, ?_, hp, hch, hts, hcount⟩
  intro c2 hc2
  simp only [setRender] at hc2
  rcases List.mem_or_eq_of_mem_set hc2 with hc2 | rfl
  · exact hr c2 hc2
  · exact hc

theorem modelAbsent_erase {w : World} (h : ModelAbsent w) (t : Task) :
    ModelAbsent { w with pending := w.pending.erase t } := by
  obtain ⟨hm, hr, hp, hch, hts, hcount⟩ := h
  refine ⟨hm, hr, hp, hch, ?_, ?_⟩
  · intro t2 ht2
    exact hts t2 (List.mem_of_mem_erase ht2)
  · exact le_trans (List.Sublist.count_le (List.erase_sublist t w.pending) Task.load) hcount

theorem modelAbsent_complete {w : World} (h : ModelAbsent w) (t : Task) (k : World → World)
    (hk : t.withoutModel = true → ∀ w2 : World, ModelAbsent w2 → ModelAbsent (k w2)) :
    ModelAbsent (complete w t k) := by
  unfold complete
  split
  · rename_i hmem
    exact hk (h.2.2.2.2.1 t hmem) _ (modelAbsent_erase h t)
  · exact h

theorem modelAbsent_render_model {w : World} (h : ModelAbsent w) {r : Nat} {c : Render}
    (hc : w.renders[r]? = some c) : c.model = none :=
  h.2.1 c (List.mem_iff_getElem?.mpr ⟨r, hc⟩)

theorem modelAbsent_initWebcam {w : World} (h : ModelAbsent w) (r : Nat) :
    ModelAbsent (initWebcam w r) := by
  unfold initWebcam
  split
  · exact h
  · rename_i c hc
    split
    · exact h
    · have hcm : c.model = none := modelAbsent_render_model h hc
      have h1 := modelAbsent_consoleWrite h "Setting up webcam..."
      have h2 := modelAbsent_setRender h1 r
        { c with webcam := some { video := false, canvas := false, stopped := false } } hcm
      exact modelAbsent_spawn h2 (Task.setup r) rfl (by simp)

theorem modelAbsent_initWebcam_afterSetup {w : World} (h : ModelAbsent w) (r : Nat)
    (canvas : Option Bool) : ModelAbsent (initWebcam_afterSetup w r canvas) := by
  unfold initWebcam_afterSetup
  split
  · exact modelAbsent_consoleWrite h _
  · simp only
    split
    · exact modelAbsent_consoleWrite h _
    · rename_i c hc
      have hcm : c.model = none :=
        modelAbsent_render_model (modelAbsent_consoleWrite h "Webcam setup completed") hc
      split
      · exact modelAbsent_consoleWrite (modelAbsent_consoleWrite h _) _
      · have hset := modelAbsent_setRender (modelAbsent_consoleWrite h "Webcam setup completed")
          r { c with webcam := some { (‹Webcam›) with video := true, canvas := ‹Bool› } } hcm
        split
        · exact modelAbsent_spawn hset _ rfl (by simp)
        · exact modelAbsent_consoleWrite hset _

theorem modelAbsent_initWebcam_afterPlay {w : World} (h : ModelAbsent w) (r : Nat)
    (played : Bool) : ModelAbsent (initWebcam_afterPlay w r played) := by
  unfold initWebcam_afterPlay
  split
  · exact modelAbsent_consoleWrite h _
  · split
    · exact modelAbsent_consoleWrite h _
    · split
      · exact h
      · rename_i c hc
        have hcm : c.model = none := modelAbsent_render_model h hc
        split
        · exact modelAbsent_consoleWrite h _
        · rename_i m hm
          rw [hcm] at hm
          exact absurd hm (by simp)

theorem modelAbsent_throwUncaught {w : World} (h : ModelAbsent w) :
    ModelAbsent (throwUncaught w) := h

theorem modelAbsent_stopWebcam {w : World} (h : ModelAbsent w) :
    ModelAbsent (stopWebcam w) := by
  unfold stopWebcam
  split
  · exact modelAbsent_setIsWebcamActive h _
  · rename_i c hc
    split
    · exact modelAbsent_setIsWebcamActive h _
    · have hcm : c.model = none := modelAbsent_render_model h hc
      split
      · have hset := modelAbsent_setRender h w.current
          { c with webcam := some { (‹Webcam›) with stopped := true } } hcm
        exact modelAbsent_setIsWebcamActive hset _
      · exact modelAbsent_throwUncaught h

theorem modelAbsent_onloadend {w : World} (h : ModelAbsent w) (r : Nat)
    (result : Option String) : ModelAbsent (handleImageUpload_onloadend w r result) := by
  unfold handleImageUpload_onloadend predictImage
  have h2 := modelAbsent_setImageSrc h result
  split
  · exact h2
  · rename_i c hc
    have hcm : c.model = none := modelAbsent_render_model h2 hc
    split
    · exact h2
    · rename_i m hm
      rw [hcm] at hm
      exact absurd hm (by simp)

/-- While no model is loaded, every event other than the arrival of the model keeps
the component in that condition. -/
theorem modelAbsent_step {w : World} (h : ModelAbsent w) (e : Event)
    (he : ∀ m : Model, e ≠ Event.loadResolved m) : ModelAbsent (step w e) := by
  cases e with
  | clickToggle => exact modelAbsent_setIsWebcamActive h _
  | clickStartWebcam supported =>
    simp only [step, startWebcam]
    split
    · split
      · exact modelAbsent_spawn h _ rfl (by simp)
      · exact modelAbsent_consoleWrite h _
    · exact h
  | clickStopWebcam =>
    simp only [step]
    split
    · exact modelAbsent_stopWebcam h
    · exact h
  | changeFile file =>
    simp only [step, handleImageUpload]
    split
    · exact h
    · split
      · exact modelAbsent_spawn h _ rfl (by simp)
      · exact h
  | clickChooseItem =>
    simp only [step, handleChooseItem, h.2.2.1]
    exact h
  | loadResolved m => exact absurd rfl (he m)
  | loadRejected =>
    exact modelAbsent_complete h _ _ fun _ w2 h2 => modelAbsent_consoleWrite h2 _
  | getUserMediaResolved r =>
    refine modelAbsent_complete h _ _ fun _ w2 h2 => ?_
    simp only [startWebcam_afterGetUserMedia, if_true]
    exact modelAbsent_initWebcam (modelAbsent_setIsWebcamActive h2 true) r
  | getUserMediaRejected r =>
    refine modelAbsent_complete h _ _ fun _ w2 h2 => ?_
    simp only [startWebcam_afterGetUserMedia]
    exact modelAbsent_consoleWrite h2 _
  | setupResolved r canvas =>
    exact modelAbsent_complete h _ _ fun _ w2 h2 => modelAbsent_initWebcam_afterSetup h2 r _
  | setupRejected r =>
    exact modelAbsent_complete h _ _ fun _ w2 h2 => modelAbsent_initWebcam_afterSetup h2 r _
  | playResolved r =>
    exact modelAbsent_complete h _ _ fun _ w2 h2 => modelAbsent_initWebcam_afterPlay h2 r _
  | playRejected r =>
    exact modelAbsent_complete h _ _ fun _ w2 h2 => modelAbsent_initWebcam_afterPlay h2 r _
  | animationFrame r =>
    exact modelAbsent_complete h _ _ fun hf => absurd hf (by simp [Task.withoutModel])
  | predictResolved r prediction =>
    exact modelAbsent_complete h _ _ fun hf => absurd hf (by simp [Task.withoutModel])
  | predictRejected r =>
    exact modelAbsent_complete h _ _ fun hf => absurd hf (by simp [Task.withoutModel])
  | readEnd r result =>
    exact modelAbsent_complete h _ _ fun _ w2 h2 => modelAbsent_onloadend h2 r result
  | imgLoad r =>
    exact modelAbsent_complete h _ _ fun hf => absurd hf (by simp [Task.withoutModel])
  | predictImageResolved r prediction =>
    exact modelAbsent_complete h _ _ fun hf => absurd hf (by simp [Task.withoutModel])
  | predictImageRejected r =>
    exact modelAbsent_complete h _ _ fun hf => absurd hf (by simp [Task.withoutModel])

/-- No handler calls `tmImage.load` again: once the fetch has settled it stays
settled. -/
theorem load_not_respawned (w : World) (e : Event) (h : Task.load ∉ w.pending) :
    Task.load ∉ (step w e).pending := by
  cases e <;>
    (simp only [step, complete, loadModel_afterLoad, startWebcam_afterGetUserMedia,
        initWebcam_afterSetup, initWebcam_afterPlay, loop, predict_afterPredict,
        handleImageUpload_onloadend, predictImage_onload, predictImage_afterPredict,
        startWebcam, stopWebcam, handleImageUpload, predictImage, initWebcam,
        handleChooseItem, setChosenItem,
        startPredictionLoop, setModel, setPrediction, setImageSrc, setIsWebcamActive,
        consoleWrite, spawn, throwUncaught, setRender, World.render]
     repeat' split
     all_goals simp_all [List.mem_erase_of_ne])

/-- The rejection of the model fetch settles it: afterwards `tmImage.load` is no
longer pending and still no model is loaded. -/
theorem modelAbsent_loadRejected {w : World} (h : ModelAbsent w) :
    ModelAbsent (step w Event.loadRejected) ∧
      Task.load ∉ (step w Event.loadRejected).pending := by
  refine ⟨modelAbsent_step h _ (by simp), ?_⟩
  simp only [step, complete, loadModel_afterLoad, consoleWrite]
  split
  · rename_i hmem
    have hcount : w.pending.count Task.load ≤ 1 := h.2.2.2.2.2
    have hpos : 0 < w.pending.count Task.load := List.count_pos_iff.mpr hmem
    intro hmem2
    have hpos2 : 0 < (w.pending.erase Task.load).count Task.load :=
      List.count_pos_iff.mpr hmem2
    rw [List.count_erase_self] at hpos2
    omega
  · assumption

/-- Once the fetch has settled without a model, every event keeps the component
without a model. -/
theorem modelAbsent_settled_step {w : World} (h : ModelAbsent w)
    (hl : Task.load ∉ w.pending) (e : Event) :
    ModelAbsent (step w e) ∧ Task.load ∉ (step w e).pending := by
  refine ⟨?_, load_not_respawned w e hl⟩
  by_cases he : ∃ m : Model, e = Event.loadResolved m
  · obtain ⟨m, rfl⟩ := he
    simp only [step, complete, hl, if_false]
    exact h
  · exact modelAbsent_step h e fun m hm => he ⟨m, hm⟩

theorem modelAbsent_settled_run (events : List Event) {w : World} (h : ModelAbsent w)
    (hl : Task.load ∉ w.pending) :
    ModelAbsent (run w events) ∧ Task.load ∉ (run w events).pending := by
  induction events generalizing w with
  | nil => exact ⟨h, hl⟩
  | cons e es ih =>
    obtain ⟨h2, hl2⟩ := modelAbsent_settled_step h hl e
    exact ih h2 hl2

theorem modelAbsent_run (events : List Event) {w : World} (h : ModelAbsent w)
    (he : ∀ m : Model, Event.loadResolved m ∉ events) : ModelAbsent (run w events) := by
  induction events generalizing w with
  | nil => exact h
  | cons e es ih =>
    have h2 : ModelAbsent (step w e) :=
      modelAbsent_step h e fun m hm => he m (by simp [hm])
    exact ih h2 fun m hm => he m (List.mem_cons_of_mem _ hm)

theorem run_append (w : World) (xs ys : List Event) :
    run w (xs ++ ys) = run (run w xs) ys := by
  simp [run, List.foldl_append]

/-- Work that needs a model is never pending while no model is loaded, so its
completion does nothing. -/
theorem complete_of_modelAbsent {w : World} (h : ModelAbsent w) (t : Task)
    (ht : t.withoutModel = false) (k : World → World) : complete w t k = w := by
  unfold complete
  split
  · rename_i hmem
    have := h.2.2.2.2.1 t hmem
    rw [ht] at this
    exact absurd this (by simp)
  · rfl

/-- While no model is loaded, no handler other than `stopWebcam` lets an exception
escape, and one Stop Webcam click lets at most one escape. -/
theorem uncaught_step_of_modelAbsent {w : World} (h : ModelAbsent w) (e : Event) :
    (step w e).uncaught ≤ w.uncaught + stopClicks [e] ∧
    (e ≠ Event.clickStopWebcam → (step w e).uncaught = w.uncaught) := by
  have key : (e ≠ Event.clickStopWebcam → (step w e).uncaught = w.uncaught) ∧
      (e = Event.clickStopWebcam → (step w e).uncaught ≤ w.uncaught + 1) := by
    cases e with
    | clickStopWebcam =>
      refine ⟨fun hne => absurd rfl hne, fun _ => ?_⟩
      simp only [step, stopWebcam, setIsWebcamActive, setRender, throwUncaught, World.render]
      repeat' split
      all_goals simp
    | animationFrame r =>
      refine ⟨fun _ => ?_, fun he => by simp at he⟩
      simp only [step]
      rw [complete_of_modelAbsent h (Task.frame r) rfl]
    | predictResolved r prediction =>
      refine ⟨fun _ => ?_, fun he => by simp at he⟩
      simp only [step]
      rw [complete_of_modelAbsent h (Task.predict r) rfl]
    | predictRejected r =>
      refine ⟨fun _ => ?_, fun he => by simp at he⟩
      simp only [step]
      rw [complete_of_modelAbsent h (Task.predict r) rfl]
    | imgLoad r =>
      refine ⟨fun _ => ?_, fun he => by simp at he⟩
      simp only [step]
      rw [complete_of_modelAbsent h (Task.decode r) rfl]
    | predictImageResolved r prediction =>
      refine ⟨fun _ => ?_, fun he => by simp at he⟩
      simp only [step]
      rw [complete_of_modelAbsent h (Task.predictImage r) rfl]
    | predictImageRejected r =>
      refine ⟨fun _ => ?_, fun he => by simp at he⟩
      simp only [step]
      rw [complete_of_modelAbsent h (Task.predictImage r) rfl]
    | _ =>
      refine ⟨fun _ => ?_, fun he => by simp at he⟩
      simp only [step, complete, loadModel_afterLoad, startWebcam_afterGetUserMedia,
        initWebcam_afterSetup, initWebcam_afterPlay,
        handleImageUpload_onloadend, startWebcam, handleImageUpload, predictImage,
        initWebcam, handleChooseItem, setChosenItem, startPredictionLoop, setModel,
        setImageSrc, setIsWebcamActive, consoleWrite, spawn, setRender, World.render]
      repeat' split
      all_goals simp_all
  refine ⟨?_, key.1⟩
  by_cases he : e = Event.clickStopWebcam
  · subst he
    simpa [stopClicks] using key.2 rfl
  · rw [key.1 he]
    omega

theorem stopClicks_cons (e : Event) (es : List Event) :
    stopClicks (e :: es) = stopClicks [e] + stopClicks es := by
  simp only [stopClicks, List.count_cons, List.count_nil]
  omega

theorem stopClicks_append (xs ys : List Event) :
    stopClicks (xs ++ ys) = stopClicks xs + stopClicks ys := by
  simp [stopClicks, List.count_append]

theorem uncaught_settled_run (events : List Event) {w : World} (h : ModelAbsent w)
    (hl : Task.load ∉ w.pending) :
    (run w events).uncaught ≤ w.uncaught + stopClicks events := by
  induction events generalizing w with
  | nil => simp [run]
  | cons e es ih =>
    obtain ⟨h2, hl2⟩ := modelAbsent_settled_step h hl e
    have h3 := ih h2 hl2
    have h4 := (uncaught_step_of_modelAbsent h e).1
    have h5 : run w (e :: es) = run (step w e) es := rfl
    rw [h5, stopClicks_cons]
    omega

theorem uncaught_run (events : List Event) {w : World} (h : ModelAbsent w)
    (he : ∀ m : Model, Event.loadResolved m ∉ events) :
    (run w events).uncaught ≤ w.uncaught + stopClicks events := by
  induction events generalizing w with
  | nil => simp [run]
  | cons e es ih =>
    have h2 : ModelAbsent (step w e) :=
      modelAbsent_step h e fun m hm => he m (by simp [hm])
    have h3 := ih h2 fun m hm => he m (List.mem_cons_of_mem _ hm)
    have h4 := (uncaught_step_of_modelAbsent h e).1
    have h5 : run w (e :: es) = run (step w e) es := rfl
    rw [h5, stopClicks_cons]
    omega

/-- What holds of the code when the model fetch rejects (whatever the user did
before the rejection arrived): after every subsequent sequence of events `model` is
still null, `prediction` is still null so the label area shows "No predictions yet.",
`chosenItem` is still unset, neither the prediction loop nor any classification is
pending, and the exceptions that escaped are at most as many as the Stop Webcam
clicks. -/
theorem load_rejected_keeps_state_null (before after : List Event)
    (hbefore : ∀ m : Model, Event.loadResolved m ∉ before) :
    (run mount (before ++ Event.loadRejected :: after)).model = none ∧
    (run mount (before ++ Event.loadRejected :: after)).prediction = none ∧
    labelText (run mount (before ++ Event.loadRejected :: after)) = "No predictions yet." ∧
    (run mount (before ++ Event.loadRejected :: after)).chosenItem = none ∧
    (run mount (before ++ Event.loadRejected :: after)).uncaught
      ≤ stopClicks (before ++ Event.loadRejected :: after) ∧
    ∀ r : Nat,
      Task.frame r ∉ (run mount (before ++ Event.loadRejected :: after)).pending ∧
      Task.predict r ∉ (run mount (before ++ Event.loadRejected :: after)).pending ∧
      Task.predictImage r ∉ (run mount (before ++ Event.loadRejected :: after)).pending := by
  have h1 : ModelAbsent (run mount before) := modelAbsent_run before modelAbsent_mount hbefore
  have u1 := uncaught_run before modelAbsent_mount hbefore
  obtain ⟨h2, hl2⟩ := modelAbsent_loadRejected h1
  have u2 := (uncaught_step_of_modelAbsent h1 Event.loadRejected).2 (by simp)
  obtain ⟨h3, -⟩ := modelAbsent_settled_run after h2 hl2
  have u3 := uncaught_settled_run after h2 hl2
  have hrun : run mount (before ++ Event.loadRejected :: after)
      = run (step (run mount before) Event.loadRejected) after := by
    rw [run_append]
    rfl
  have hclicks : stopClicks (before ++ Event.loadRejected :: after)
      = stopClicks before + stopClicks after := by
    rw [stopClicks_append, stopClicks_cons]
    simp [stopClicks]
  have hmount : mount.uncaught = 0 := rfl
  rw [hrun, hclicks]
  obtain ⟨hm, -, hp, hc, ht, -⟩ := h3
  refine ⟨hm, hp, by simp [labelText, hp], hc, by omega, ?_⟩
  intro r
  refine ⟨?_, ?_, ?_⟩ <;>
    · intro hmem
      have := ht _ hmem
      simp [Task.withoutModel] at this

/-- C7, evaluated on the code: the user switches to webcam mode and clicks Start
Webcam, the model fetch rejects, `getUserMedia` resolves and `initWebcam` assigns
`webcam` and awaits `webcam.setup()`.  Whether `setup()` then rejects (first run) or is
still pending (second run), a Stop Webcam click finds `webcam` set and calls
`webcam.stop()` outside any `try`: the `TypeError` escapes the handler and
`isWebcamActive` stays true.  The rest of the claim holds there: `model` and
`prediction` are null and nothing is chosen. -/
theorem stopWebcam_before_setup_escapes :
    (run mount [Event.clickToggle, Event.clickStartWebcam true, Event.loadRejected,
      Event.getUserMediaResolved 1, Event.setupRejected 1]).uncaught = 0 ∧
    (run mount [Event.clickToggle, Event.clickStartWebcam true, Event.loadRejected,
      Event.getUserMediaResolved 1, Event.setupRejected 1,
      Event.clickStopWebcam]).uncaught = 1 ∧
    (run mount [Event.clickToggle, Event.clickStartWebcam true, Event.loadRejected,
      Event.getUserMediaResolved 1, Event.setupRejected 1,
      Event.clickStopWebcam]).isWebcamActive = true ∧
    (run mount [Event.clickToggle, Event.clickStartWebcam true, Event.loadRejected,
      Event.getUserMediaResolved 1, Event.clickStopWebcam]).uncaught = 1 ∧
    (run mount [Event.clickToggle, Event.clickStartWebcam true, Event.loadRejected,
      Event.getUserMediaResolved 1, Event.setupRejected 1,
      Event.clickStopWebcam]).model = none ∧
    (run mount [Event.clickToggle, Event.clickStartWebcam true, Event.loadRejected,
      Event.getUserMediaResolved 1, Event.setupRejected 1,
      Event.clickStopWebcam]).prediction = none ∧
    (run mount [Event.clickToggle, Event.clickStartWebcam true, Event.loadRejected,
      Event.getUserMediaResolved 1, Event.setupRejected 1,
      Event.clickStopWebcam]).chosenItem = none := by
  refine ⟨?_, ?_, ?_, ?_, ?_, ?_, ?_⟩ <;> decide

/-! ## The webcam loop after Stop Webcam and after a second Start Webcam -/

/-- C6, evaluated on the code: the model loads, the user switches to webcam mode and
starts the webcam, and the loop is scheduled in render 2.  Stop Webcam then calls
`webcam.stop()` and clears `isWebcamActive`, but `webcam` of render 2 stays set: the
next animation frame passes `if (!webcam) return`, calls `model.predict`, and when
that resolves `setPrediction` changes the prediction and the loop is scheduled
again. -/
theorem stopWebcam_leaves_loop_running :
    Task.frame 2 ∈ (run mount [Event.loadResolved ⟨2⟩, Event.clickToggle,
      Event.clickStartWebcam true, Event.getUserMediaResolved 2, Event.setupResolved 2 true,
      Event.playResolved 2]).pending ∧
    (run mount [Event.loadResolved ⟨2⟩, Event.clickToggle, Event.clickStartWebcam true,
      Event.getUserMediaResolved 2, Event.setupResolved 2 true, Event.playResolved 2,
      Event.clickStopWebcam]).isWebcamActive = false ∧
    (run mount [Event.loadResolved ⟨2⟩, Event.clickToggle, Event.clickStartWebcam true,
      Event.getUserMediaResolved 2, Event.setupResolved 2 true, Event.playResolved 2,
      Event.clickStopWebcam]).renders[2]?
      = some { model := some ⟨2⟩,
               webcam := some { video := true, canvas := true, stopped := true },
               maxPredictions := some 2 } ∧
    (run mount [Event.loadResolved ⟨2⟩, Event.clickToggle, Event.clickStartWebcam true,
      Event.getUserMediaResolved 2, Event.setupResolved 2 true, Event.playResolved 2,
      Event.clickStopWebcam]).prediction = none ∧
    (run mount [Event.loadResolved ⟨2⟩, Event.clickToggle, Event.clickStartWebcam true,
      Event.getUserMediaResolved 2, Event.setupResolved 2 true, Event.playResolved 2,
      Event.clickStopWebcam, Event.animationFrame 2]).pending = [Task.predict 2] ∧
    (run mount [Event.loadResolved ⟨2⟩, Event.clickToggle, Event.clickStartWebcam true,
      Event.getUserMediaResolved 2, Event.setupResolved 2 true, Event.playResolved 2,
      Event.clickStopWebcam, Event.animationFrame 2,
      Event.predictResolved 2 [⟨"cat", 8 / 10⟩, ⟨"dog", 2 / 10⟩]]).prediction
      = some ⟨"cat", "0.80"⟩ ∧
    (run mount [Event.loadResolved ⟨2⟩, Event.clickToggle, Event.clickStartWebcam true,
      Event.getUserMediaResolved 2, Event.setupResolved 2 true, Event.playResolved 2,
      Event.clickStopWebcam, Event.animationFrame 2,
      Event.predictResolved 2 [⟨"cat", 8 / 10⟩, ⟨"dog", 2 / 10⟩]]).pending
      = [Task.frame 2] := by
  refine ⟨?_, ?_, ?_, ?_, ?_, ?_, ?_⟩ <;> decide!

/-- C9, evaluated on the code: a loop runs in render 2; its first prediction
re-renders the component, so the handlers of render 3 see a fresh, unset `webcam`.  A
second Start Webcam click passes `if (webcam) return` and starts a second loop in
render 3.  When both animation-frame callbacks run before either `model.predict`
resolves, two classifications are in flight. -/
theorem second_start_overlaps_classifications :
    (run mount [Event.loadResolved ⟨2⟩, Event.clickToggle, Event.clickStartWebcam true,
      Event.getUserMediaResolved 2, Event.setupResolved 2 true, Event.playResolved 2,
      Event.animationFrame 2, Event.predictResolved 2 [⟨"cat", 8 / 10⟩, ⟨"dog", 2 / 10⟩],
      Event.clickStartWebcam true, Event.getUserMediaResolved 3, Event.setupResolved 3 true,
      Event.playResolved 3, Event.animationFrame 2, Event.animationFrame 3]).pending
      = [Task.predict 2, Task.predict 3] ∧
    classificationsInFlight (run mount [Event.loadResolved ⟨2⟩, Event.clickToggle,
      Event.clickStartWebcam true, Event.getUserMediaResolved 2, Event.setupResolved 2 true,
      Event.playResolved 2, Event.animationFrame 2,
      Event.predictResolved 2 [⟨"cat", 8 / 10⟩, ⟨"dog", 2 / 10⟩],
      Event.clickStartWebcam true, Event.getUserMediaResolved 3, Event.setupResolved 3 true,
      Event.playResolved 3, Event.animationFrame 2, Event.animationFrame 3]) = 2 := by
  refine ⟨?_, ?_⟩ <;> decide!

end ImageAnalyzer
